import Mathlib

/-!
Shallow embedding of the TSA passenger-volume report core
(`tsa_scraper.py` extractor/aggregator and the windowed YoY reconciler of
`production_tsa_report.py` / `test_email_report.py`), with theorems settling
the specification claims.
-/

namespace TSA

/-! ## Calendar dates

`datetime.date` values are modelled as (year, month, day) triples together
with conversions to and from a day ordinal (days since 0000-03-01, Gregorian,
valid for year ≥ 1), so that `date - timedelta(days=n)` is ordinal subtraction.
-/

structure Date where
  year : Nat
  month : Nat
  day : Nat
deriving DecidableEq, Repr

def isLeap (y : Nat) : Bool :=
  (y % 4 == 0 && y % 100 != 0) || y % 400 == 0

def daysInMonth (y m : Nat) : Nat :=
  if m == 2 then (if isLeap y then 29 else 28)
  else if m == 4 || m == 6 || m == 9 || m == 11 then 30
  else 31

def validDate (y m d : Nat) : Bool :=
  1 ≤ y && 1 ≤ m && m ≤ 12 && 1 ≤ d && d ≤ daysInMonth y m

/-- Day ordinal of a date: days since 0000-03-01 (Gregorian proleptic). -/
def Date.toOrd (dt : Date) : Nat :=
  let y := if dt.month ≤ 2 then dt.year - 1 else dt.year
  let era := y / 400
  let yoe := y % 400
  let mp := if dt.month > 2 then dt.month - 3 else dt.month + 9
  let doy := (153 * mp + 2) / 5 + dt.day - 1
  let doe := yoe * 365 + yoe / 4 - yoe / 100 + doy
  era * 146097 + doe

/-- Date of a day ordinal (inverse of `Date.toOrd` on valid dates, year ≥ 1). -/
def Date.ofOrd (z : Nat) : Date :=
  let era := z / 146097
  let doe := z % 146097
  let yoe := ((doe + doe / 36524) - (doe / 1460 + doe / 146096)) / 365
  let doy := doe - ((365 * yoe + yoe / 4) - yoe / 100)
  let mp := (5 * doy + 2) / 153
  let d := (doy + 1) - (153 * mp + 2) / 5
  let m := if mp < 10 then mp + 3 else mp - 9
  ⟨(yoe + era * 400) + (if m ≤ 2 then 1 else 0), m, d⟩

/-- `date - timedelta(days=365)`. -/
def Date.sub365 (dt : Date) : Date :=
  Date.ofOrd (dt.toOrd - 365)

/-- `target + timedelta(days=j - 3)` for `j = 0..6`: the search dates of the
±3-day windowed fallback, in the ascending order the loop visits them. -/
def Date.offset (t : Date) (j : Nat) : Date :=
  Date.ofOrd (t.toOrd + j - 3)

example : Date.sub365 ⟨2024, 3, 15⟩ = ⟨2023, 3, 16⟩ := by decide
example : Date.sub365 ⟨2025, 3, 15⟩ = ⟨2024, 3, 15⟩ := by decide
example : Date.offset ⟨2023, 3, 16⟩ 4 = ⟨2023, 3, 17⟩ := by decide
example : Date.offset ⟨2023, 3, 16⟩ 0 = ⟨2023, 3, 13⟩ := by decide

/-! ## String utilities

Boolean substring and digit tests mirroring the Python expressions
`'date' in header_text.lower()`, `'/' in first_cell_text`,
`any(char.isdigit() for char in first_cell_text)`,
`volume_text.replace(',', '')` and `int(...)`.
-/

/-- `leadsWith pat l`: `pat` is an initial segment of `l`. -/
def leadsWith : List Char → List Char → Bool
  | [], _ => true
  | _ :: _, [] => false
  | a :: as, b :: bs => a == b && leadsWith as bs

/-- `hasSubstr pat l`: `pat` occurs contiguously in `l` (Python `pat in s`). -/
def hasSubstr (pat : List Char) : List Char → Bool
  | [] => leadsWith pat []
  | c :: rest => leadsWith pat (c :: rest) || hasSubstr pat rest

/-- Python `s.split(sep)` for a one-character separator. -/
def splitOnChar (sep : Char) : List Char → List (List Char)
  | [] => [[]]
  | x :: xs =>
    match splitOnChar sep xs with
    | [] => [[]]
    | h :: t => if x == sep then [] :: h :: t else (x :: h) :: t

/-- Python `s.lower()` on the ASCII texts this program handles. -/
def lowerChars (l : List Char) : List Char :=
  l.map Char.toLower

/-- `' '.join(texts)`. -/
def joinWithSpace : List (List Char) → List Char
  | [] => []
  | [x] => x
  | x :: y :: rest => x ++ ' ' :: joinWithSpace (y :: rest)

/-- All-digit nonempty string to its numeric value. -/
def digitsToNat? (l : List Char) : Option Nat :=
  if l ≠ [] && l.all Char.isDigit then
    some (l.foldl (fun acc c => acc * 10 + (c.toNat - 48)) 0)
  else none

/-- Python `int(s)` on the strings this program feeds it: an optional sign
followed by one or more decimal digits (the whitespace/underscore forms
Python also tolerates never arise here and are not modelled). Note that a
leading `-` parses to a negative integer. -/
def pyInt? : List Char → Option Int
  | '-' :: rest => (digitsToNat? rest).map (fun n => -(n : Int))
  | '+' :: rest => (digitsToNat? rest).map (fun n => (n : Int))
  | l => (digitsToNat? l).map (fun n => (n : Int))

/-- `volume_text.replace(',', '')`. -/
def stripCommas (l : List Char) : List Char :=
  l.filter (fun c => c ≠ ',')

/-! ## Table locator and extractor (`tsa_scraper.py`)

HTML is abstracted to the structure the scraper inspects: a table is a list
of rows (`tr`), a row a list of cells, a cell its stripped text plus whether
it is a `th` header cell. `table.find_all('th')` is the in-order list of
header cells across all rows; `row.find_all(['td', 'th'])` is the row's cells.
-/

structure Cell where
  header : Bool
  text : String
deriving DecidableEq, Repr

def HtmlRow := List Cell

def HtmlTable := List (List Cell)

/-- Texts of the table's `th` cells, in document order. -/
def thTexts (t : List (List Cell)) : List String :=
  (t.flatten.filter (fun c => c.header)).map (fun c => c.text)

/-- `datetime.strptime(f"{month}/{day}/{year}", "%m/%d/%Y")`: 1–2 digit month
and day fields, exactly 4 digit year, forming a valid calendar date. -/
def parseMDY (m d y : List Char) : Option Date :=
  match digitsToNat? m, digitsToNat? d, digitsToNat? y with
  | some mv, some dv, some yv =>
    if m.length ≤ 2 && d.length ≤ 2 && y.length == 4 && validDate yv mv dv then
      some ⟨yv, mv, dv⟩
    else none
  | _, _, _ => none

/-- `datetime.strptime(date_text, "%Y-%m-%d")`. -/
def parseISO (l : List Char) : Option Date :=
  match splitOnChar '-' l with
  | [y, m, d] =>
    match digitsToNat? y, digitsToNat? m, digitsToNat? d with
    | some yv, some mv, some dv =>
      if y.length == 4 && m.length ≤ 2 && d.length ≤ 2 && validDate yv mv dv then
        some ⟨yv, mv, dv⟩
      else none
    | _, _, _ => none
  | _ => none

/-- The date-parsing branch of `extract_table_data`: on `/`-separated text,
split into month/day/year, expand a 2-digit year with a `20` prefix and
read `%m/%d/%Y`; otherwise try ISO `%Y-%m-%d`. `none` is the caught
`ValueError` (row skipped). -/
def parseDateText (s : String) : Option Date :=
  let l := s.toList
  if l.contains '/' then
    match splitOnChar '/' l with
    | [m, d, y] =>
      let y := if y.length == 2 then '2' :: '0' :: y else y
      parseMDY m d y
    | _ => none
  else parseISO l

/-- One extracted observation: the dict
`{'date': date_obj, 'passenger_volume': volume, 'year': year}` appended by
`extract_table_data`. `volume` is a Python `int` (an unbounded integer, of
either sign — the code applies no sign check). `sourceYear` is the `year`
parameter of the extraction call, not derived from the parsed date. -/
structure VolumeRecord where
  date : Date
  volume : Int
  sourceYear : Nat
deriving DecidableEq, Repr

/-- The body of `extract_table_data`'s row loop: rows with fewer than 2 cells
are skipped, cell 0 parses as the date, cell 1 (commas stripped) as the
volume; any parse failure skips the row (`continue`). -/
def parseRow (year : Nat) (row : List Cell) : Option VolumeRecord :=
  match row with
  | c0 :: c1 :: _ =>
    match parseDateText c0.text, pyInt? (stripCommas c1.text.toList) with
    | some d, some v => some ⟨d, v, year⟩
    | _, _ => none
  | _ => none

/-- `extract_table_data(table, year)`: skip the header row (`rows[1:]`), keep
the records of the rows that parse, in order. -/
def extract_table_data (year : Nat) (t : List (List Cell)) : List VolumeRecord :=
  (t.drop 1).filterMap (parseRow year)

/-- `' '.join` of the header-cell texts, lowercased. -/
def headerLower (t : List (List Cell)) : List Char :=
  lowerChars (joinWithSpace ((thTexts t).map String.toList))

/-- Phase-1 test of `parse_table_data`: the table has header cells and their
joined text contains `date` or `tsa` case-insensitively. -/
def semanticMatch (t : List (List Cell)) : Bool :=
  thTexts t ≠ [] &&
    (hasSubstr "date".toList (headerLower t) ||
     hasSubstr "tsa".toList (headerLower t))

/-- Phase-2 test of `parse_table_data`: at least two rows, the FIRST row has
at least 2 cells, and that row's first cell text contains `/` and a digit. -/
def structuralMatch (t : List (List Cell)) : Bool :=
  match t with
  | (c0 :: _ :: _) :: _ :: _ =>
    c0.text.toList.contains '/' && c0.text.toList.any Char.isDigit
  | _ => false

/-- The phase-2 structural test as the claim words it, for comparison with
`structuralMatch` (the code's test): the table's first DATA row — the first
row after the presumed header — has at least 2 cells and its first cell's
text contains a `/` together with at least one digit. -/
def specFirstDataRowShaped (t : List (List Cell)) : Bool :=
  match t.drop 1 with
  | (c0 :: _ :: _) :: _ =>
    c0.text.toList.contains '/' && c0.text.toList.any Char.isDigit
  | _ => false

/-- `parse_table_data(html_content, year)` on the page's table list: extract
from the first semantically matching table, else from the first structurally
matching table, else return the empty frame. -/
def parse_table_data (tables : List (List (List Cell))) (year : Nat) :
    List VolumeRecord :=
  match tables.find? semanticMatch with
  | some t => extract_table_data year t
  | none =>
    match tables.find? structuralMatch with
    | some t => extract_table_data year t
    | none => []

/-! ## YoY reconciler (`calculate_yoy_growth` of `production_tsa_report.py`,
identical in `test_email_report.py`)

The DataFrame row filter
`df_yoy[(df_yoy['month'] == t.month) & (df_yoy['day'] == t.day) & (df_yoy['year'] == t.year)]`
compares the month and day of each record's `date` and the record's `year`
COLUMN (the source-year tag set by the scraper) against the target date's
components; `.iloc[0]` takes the first row of the filtered frame. Ratio and
percentage are Python floats, modelled as exact rationals. -/

def matchesDate (t : Date) (r : VolumeRecord) : Bool :=
  r.date.month == t.month && r.date.day == t.day && r.sourceYear == t.year

/-- The exact-search filter
`df_yoy[(month == t.month) & (day == t.day) & (year == t.year)]`. -/
def exactSearch (series : List VolumeRecord) (t : Date) : List VolumeRecord :=
  series.filter (matchesDate t)

/-- The `for day_offset in range(-3, 4)` fallback loop: filter the series at
each search date in ascending offset order and stop at the first nonempty
result; `[]` if every offset misses. `js` enumerates `j = 0..6` for offsets
`j - 3`. -/
def scanOffsets (series : List VolumeRecord) (t : Date) :
    List Nat → List VolumeRecord
  | [] => []
  | j :: js =>
    let l := exactSearch series (t.offset j)
    if l.isEmpty then scanOffsets series t js else l

/-- The `last_year_data` frame after both search steps, for a record dated
`cur`: the exact filter at `target = cur - 365 days`, or on an empty exact
result the first nonempty windowed filter. -/
def lastYearData (series : List VolumeRecord) (cur : Date) : List VolumeRecord :=
  if (exactSearch series cur.sub365).isEmpty then
    scanOffsets series cur.sub365 [0, 1, 2, 3, 4, 5, 6]
  else
    exactSearch series cur.sub365

/-- One output dict of `calculate_yoy_growth`:
`{'date', 'passenger_volume', 'year', 'yoy_ratio', 'yoy_percentage'}`,
with `None` as `Option.none`. -/
structure YoYRecord where
  date : Date
  volume : Int
  year : Nat
  yoyQuot : Option ℚ
  yoyPct : Option ℚ
deriving DecidableEq, Repr

/-- `yoy_ratio = current_volume / last_year_volume if last_year_volume > 0
else None`. -/
def ratioOf (v pv : Int) : Option ℚ :=
  if pv > 0 then some ((v : ℚ) / (pv : ℚ)) else none

/-- `yoy_percentage = (yoy_ratio - 1) * 100 if yoy_ratio else None`. The
guard is Python truthiness: it is False both for `None` and for a ratio
equal to `0.0`. -/
def pctOf : Option ℚ → Option ℚ
  | some qv => if qv == 0 then none else some ((qv - 1) * 100)
  | none => none

/-- The loop body of `calculate_yoy_growth` for one record. -/
def reconcileOne (series : List VolumeRecord) (r : VolumeRecord) : YoYRecord :=
  match (lastYearData series r.date).head? with
  | some pr =>
    ⟨r.date, r.volume, r.sourceYear, ratioOf r.volume pr.volume,
      pctOf (ratioOf r.volume pr.volume)⟩
  | none => ⟨r.date, r.volume, r.sourceYear, none, none⟩

/-- `calculate_yoy_growth(df)`: one output per input row, in order, each
matched against the whole series. -/
def calculate_yoy_growth (series : List VolumeRecord) : List YoYRecord :=
  series.map (reconcileOne series)

/-! ## Multi-year aggregator (`scrape_all_years` of `tsa_scraper.py`) -/

/-- The ascending-by-date order `df.sort_values('date')` sorts by. -/
def dateLe (x y : VolumeRecord) : Prop :=
  x.date.toOrd ≤ y.date.toOrd

instance : DecidableRel dateLe := fun x y => Nat.decLe x.date.toOrd y.date.toOrd

instance : IsTotal VolumeRecord dateLe :=
  ⟨fun x y => Nat.le_total x.date.toOrd y.date.toOrd⟩

instance : IsTrans VolumeRecord dateLe :=
  ⟨fun _x _y _z h1 h2 => Nat.le_trans h1 h2⟩

/-- Ascending sort by date (`df.sort_values('date')`). -/
def sortByDate : List VolumeRecord → List VolumeRecord :=
  List.insertionSort dateLe

/-- The `all_data` list of `scrape_all_years`: one entry per year of the
inclusive range whose scrape came back nonempty, in year order. The
per-year fetch+extract pipeline is abstracted as `scrapeYear`; a fetch
failure or extraction miss for a year is the empty list, and such years are
skipped. -/
def collectYears (scrapeYear : Nat → List VolumeRecord)
    (startYear endYear : Nat) : List (List VolumeRecord) :=
  ((List.range' startYear (endYear + 1 - startYear)).map scrapeYear).filter
    (fun l => !l.isEmpty)

/-- `scrape_all_years(start_year, end_year)`: concatenate the surviving
per-year frames and sort by date; if every year came back empty, return the
empty frame. -/
def scrape_all_years (scrapeYear : Nat → List VolumeRecord)
    (startYear endYear : Nat) : List VolumeRecord :=
  if (collectYears scrapeYear startYear endYear).isEmpty then []
  else sortByDate (collectYears scrapeYear startYear endYear).flatten

/-! Sanity checks of the embedding on the spec's concrete scenarios. -/

example : parseDateText "3/15/2024" = some ⟨2024, 3, 15⟩ := by decide
example : parseDateText "01/02/25" = some ⟨2025, 1, 2⟩ := by decide
example : parseDateText "2024-03-15" = some ⟨2024, 3, 15⟩ := by decide
example : parseDateText "2/30/2024" = none := by decide
example : parseDateText "Date" = none := by decide
example : pyInt? (stripCommas "2,500,000".toList) = some 2500000 := by decide
example : pyInt? (stripCommas "-100".toList) = some (-100) := by decide
example : pyInt? "12x".toList = none := by decide

example :
    lastYearData
      [⟨⟨2024, 3, 15⟩, 100000, 2024⟩, ⟨⟨2023, 3, 17⟩, 95000, 2023⟩]
      ⟨2024, 3, 15⟩ = [⟨⟨2023, 3, 17⟩, 95000, 2023⟩] := by
  decide

example :
    parse_table_data
      [[[⟨true, "Date"⟩, ⟨true, "TSA checkpoint travel numbers"⟩],
        [⟨false, "3/15/2024"⟩, ⟨false, "2,500,000"⟩],
        [⟨false, "bad row"⟩, ⟨false, "100"⟩],
        [⟨false, "3/16/2024"⟩, ⟨false, "2,600,000"⟩]]] 2024 =
    [⟨⟨2024, 3, 15⟩, 2500000, 2024⟩, ⟨⟨2024, 3, 16⟩, 2600000, 2024⟩] := by
  decide

/-! ## Helper lemmas -/

/-- A successful `find?` finds a witness of the predicate in the list. -/
theorem find?_split {α : Type} (p : α → Bool) (pre : List α) (t : α)
    (post : List α) (hpre : ∀ u ∈ pre, p u = false) (ht : p t = true) :
    (pre ++ t :: post).find? p = some t := by
  induction pre with
  | nil => simp [List.find?, ht]
  | cons x xs ih =>
    have hx : p x = false := hpre x (by simp)
    simp only [List.cons_append, List.find?]
    rw [hx]
    exact ih fun u hu => hpre u (by simp [hu])

/-- `find?` fails on a list where the predicate is everywhere false. -/
theorem find?_none {α : Type} (p : α → Bool) (l : List α)
    (h : ∀ u ∈ l, p u = false) : l.find? p = none := by
  exact List.find?_eq_none.mpr fun x hx => by simp [h x hx]

/-- `scanOffsets` skips a block of offsets whose searches all come back
empty. -/
theorem scanOffsets_append_empty (series : List VolumeRecord) (t : Date)
    (js1 js2 : List Nat)
    (h : ∀ k ∈ js1, exactSearch series (t.offset k) = []) :
    scanOffsets series t (js1 ++ js2) = scanOffsets series t js2 := by
  induction js1 with
  | nil => rfl
  | cons j js ih =>
    have hj : exactSearch series (t.offset j) = [] := h j (by simp)
    simp only [List.cons_append, scanOffsets, hj, List.isEmpty_nil, if_true]
    exact ih fun k hk => h k (by simp [hk])

/-- `scanOffsets` stops at the first offset whose search is nonempty. -/
theorem scanOffsets_found (series : List VolumeRecord) (t : Date) (j : Nat)
    (js : List Nat) (h : (exactSearch series (t.offset j)).isEmpty = false) :
    scanOffsets series t (j :: js) = exactSearch series (t.offset j) := by
  simp only [scanOffsets, h]
  simp

/-- The loop's offset list split at position `j`. -/
theorem offsets_split (j : Nat) (hj : j ≤ 6) :
    ([0, 1, 2, 3, 4, 5, 6] : List Nat) =
      List.range' 0 j ++ j :: List.range' (j + 1) (6 - j) := by
  interval_cases j <;> rfl

/-- `filterMap` keeps the full length on a list where it never fails. -/
theorem filterMap_length_all_isSome {α β : Type} (f : α → Option β) :
    ∀ l : List α, (∀ x ∈ l, (f x).isSome) → (l.filterMap f).length = l.length := by
  intro l
  induction l with
  | nil => intro _; rfl
  | cons x xs ih =>
    intro h
    obtain ⟨b, hb⟩ := Option.isSome_iff_exists.mp (h x (by simp))
    simp only [List.filterMap_cons, hb, List.length_cons]
    rw [ih fun y hy => h y (by simp [hy])]

/-- Dropping the empty member lists does not change a concatenation. -/
theorem flatten_filter_nonempty {α : Type} (l : List (List α)) :
    (l.filter (fun x => !x.isEmpty)).flatten = l.flatten := by
  induction l with
  | nil => rfl
  | cons x xs ih =>
    by_cases hx : x.isEmpty = true
    · have : x = [] := List.isEmpty_iff.mp hx
      simp [List.filter_cons, hx, this, ih]
    · simp [List.filter_cons, Bool.not_eq_true', eq_false_of_ne_true hx, ih]

/-! ## Claim theorems -/

/-- C1: in the windowed-fallback reconciler, when the exact prior-year search
fails, the day offsets from `target = date - 365 days` are scanned in
ascending numeric order (−3 … +3, here `offset k` for `k = 0 … 6`), and the
first record of the series found at any of those offsets is the one used —
not the closest one: if every strictly earlier offset finds nothing and
offset `j` finds `pr` first, `pr` supplies the prior volume, so
`yoy_ratio = volume / pr.volume` when `pr.volume > 0`. Instantiated by the
witness on the series {(2024-03-15, 100000), (2023-03-17, 95000)}, where the
prior volume used is 95000. -/
theorem yoy_fallback_scans_ascending_first_match
    (series : List VolumeRecord) (r : VolumeRecord) (j : Nat)
    (pr : VolumeRecord) (rest : List VolumeRecord)
    (hexact : exactSearch series r.date.sub365 = [])
    (hj : j ≤ 6)
    (hmiss : ∀ k ∈ List.range' 0 j,
      exactSearch series (r.date.sub365.offset k) = [])
    (hfound : exactSearch series (r.date.sub365.offset j) = pr :: rest) :
    (lastYearData series r.date).head? = some pr ∧
    (pr.volume > 0 →
      (reconcileOne series r).yoyQuot =
        some ((r.volume : ℚ) / (pr.volume : ℚ))) := by
  have hly : lastYearData series r.date = pr :: rest := by
    unfold lastYearData
    rw [hexact]
    simp only [List.isEmpty_nil, if_true]
    rw [offsets_split j hj, scanOffsets_append_empty series _ _ _ hmiss,
      scanOffsets_found]
    · exact hfound
    · rw [hfound]; rfl
  refine ⟨by rw [hly]; rfl, fun hpos => ?_⟩
  unfold reconcileOne
  rw [hly]
  simp only [List.head?_cons]
  show ratioOf r.volume pr.volume = some ((r.volume : ℚ) / (pr.volume : ℚ))
  exact if_pos hpos

/-- Witness for C1: the spec's windowed-fallback scenario. The series holds
(2024-03-15, 100000) and (2023-03-17, 95000) and no entry at the target
2023-03-16 (nor at 2023-03-13/14/15); the scan finds 2023-03-17 first at
offset +1 and the YoY quotient is 100000 / 95000. -/
theorem yoy_fallback_scans_ascending_first_match_witness :
    (lastYearData
        [⟨⟨2024, 3, 15⟩, 100000, 2024⟩, ⟨⟨2023, 3, 17⟩, 95000, 2023⟩]
        (⟨2024, 3, 15⟩ : Date)).head? = some ⟨⟨2023, 3, 17⟩, 95000, 2023⟩ ∧
    (reconcileOne
        [⟨⟨2024, 3, 15⟩, 100000, 2024⟩, ⟨⟨2023, 3, 17⟩, 95000, 2023⟩]
        ⟨⟨2024, 3, 15⟩, 100000, 2024⟩).yoyQuot =
      some (((100000 : Int) : ℚ) / ((95000 : Int) : ℚ)) := by
  have h := yoy_fallback_scans_ascending_first_match
    [⟨⟨2024, 3, 15⟩, 100000, 2024⟩, ⟨⟨2023, 3, 17⟩, 95000, 2023⟩]
    ⟨⟨2024, 3, 15⟩, 100000, 2024⟩ 4 ⟨⟨2023, 3, 17⟩, 95000, 2023⟩ []
    (by decide) (by decide) (by decide) (by decide)
  exact ⟨h.1, h.2 (by decide)⟩

/-- C2 counterexample: the claim says the exact search matches by the matched
record's CALENDAR date even when its `source_year` tag differs from its
date's year. On the series {(2025-03-15, 100000, tag 2025),
(2024-03-15, 90000, tag 2023)} the target for 2025-03-15 is 2024-03-15 and
the second record's calendar date matches it in month, day and year, yet the
code's exact search (which compares the `year` COLUMN, i.e. the tag) finds
nothing, and the whole reconciliation yields no prior at all. -/
theorem exact_search_calendar_year_cex :
    (Date.sub365 ⟨2025, 3, 15⟩ = ⟨2024, 3, 15⟩) ∧
    ((⟨⟨2024, 3, 15⟩, 90000, 2023⟩ : VolumeRecord).date.month =
        (Date.sub365 ⟨2025, 3, 15⟩).month ∧
      (⟨⟨2024, 3, 15⟩, 90000, 2023⟩ : VolumeRecord).date.day =
        (Date.sub365 ⟨2025, 3, 15⟩).day ∧
      (⟨⟨2024, 3, 15⟩, 90000, 2023⟩ : VolumeRecord).date.year =
        (Date.sub365 ⟨2025, 3, 15⟩).year) ∧
    exactSearch
      [⟨⟨2025, 3, 15⟩, 100000, 2025⟩, ⟨⟨2024, 3, 15⟩, 90000, 2023⟩]
      (Date.sub365 ⟨2025, 3, 15⟩) = [] ∧
    (reconcileOne
      [⟨⟨2025, 3, 15⟩, 100000, 2025⟩, ⟨⟨2024, 3, 15⟩, 90000, 2023⟩]
      ⟨⟨2025, 3, 15⟩, 100000, 2025⟩).yoyQuot = none := by
  decide

/-- C2 amended: the exact search matches exactly those records whose date's
month and day equal the target's month and day and whose SOURCE-YEAR TAG
(the scraper's `year` column) equals the target's year; the record used is
the first such record in series order. -/
theorem exact_search_matches_month_day_source_year
    (series : List VolumeRecord) (t : Date) (r : VolumeRecord)
    (h : (exactSearch series t).head? = some r) :
    r ∈ series ∧
    r.date.month = t.month ∧ r.date.day = t.day ∧ r.sourceYear = t.year ∧
    series.find? (matchesDate t) = some r := by
  unfold exactSearch at h
  rw [List.filter_head?] at h
  have hmem := List.mem_of_find?_eq_some h
  have hp := List.find?_some h
  simp only [matchesDate, Bool.and_eq_true, beq_iff_eq] at hp
  exact ⟨hmem, hp.1.1, hp.1.2, hp.2, h⟩

/-- Witness for C2 (amended): on a series whose tags agree with the dates,
the exact search for 2025-03-15's target 2024-03-15 returns the
(2024-03-15, 90000) record, which matches in month, day and tag. -/
theorem exact_search_matches_month_day_source_year_witness :
    (⟨⟨2024, 3, 15⟩, 90000, 2024⟩ : VolumeRecord) ∈
      [⟨⟨2025, 3, 15⟩, 100000, 2025⟩, ⟨⟨2024, 3, 15⟩, 90000, 2024⟩] ∧
    (⟨⟨2024, 3, 15⟩, 90000, 2024⟩ : VolumeRecord).date.month =
        (⟨2024, 3, 15⟩ : Date).month ∧
    (⟨⟨2024, 3, 15⟩, 90000, 2024⟩ : VolumeRecord).date.day =
        (⟨2024, 3, 15⟩ : Date).day ∧
    (⟨⟨2024, 3, 15⟩, 90000, 2024⟩ : VolumeRecord).sourceYear =
        (⟨2024, 3, 15⟩ : Date).year ∧
    List.find? (matchesDate ⟨2024, 3, 15⟩)
      [⟨⟨2025, 3, 15⟩, 100000, 2025⟩, ⟨⟨2024, 3, 15⟩, 90000, 2024⟩] =
      some ⟨⟨2024, 3, 15⟩, 90000, 2024⟩ :=
  exact_search_matches_month_day_source_year
    [⟨⟨2025, 3, 15⟩, 100000, 2025⟩, ⟨⟨2024, 3, 15⟩, 90000, 2024⟩]
    ⟨2024, 3, 15⟩ ⟨⟨2024, 3, 15⟩, 90000, 2024⟩ (by decide)

/-- C3 counterexample: the claim says that when a prior-year match with
positive volume exists and the current volume is 0, `yoy_ratio = 0` and
`yoy_percentage = -100`. On {(2024-03-15, 0), (2023-03-15, 90000)} the code
computes `yoy_ratio = 0.0` but then `(yoy_ratio - 1) * 100 if yoy_ratio`
takes the falsy branch, leaving `yoy_percentage` absent, not −100. -/
theorem yoy_zero_volume_pct_cex :
    (reconcileOne
      [⟨⟨2024, 3, 15⟩, 0, 2024⟩, ⟨⟨2023, 3, 15⟩, 90000, 2023⟩]
      ⟨⟨2024, 3, 15⟩, 0, 2024⟩).yoyQuot = some 0 ∧
    (reconcileOne
      [⟨⟨2024, 3, 15⟩, 0, 2024⟩, ⟨⟨2023, 3, 15⟩, 90000, 2023⟩]
      ⟨⟨2024, 3, 15⟩, 0, 2024⟩).yoyPct = none ∧
    (reconcileOne
      [⟨⟨2024, 3, 15⟩, 0, 2024⟩, ⟨⟨2023, 3, 15⟩, 90000, 2023⟩]
      ⟨⟨2024, 3, 15⟩, 0, 2024⟩).yoyPct ≠ some (-100) := by
  have h :
      (lastYearData
        [⟨⟨2024, 3, 15⟩, 0, 2024⟩, ⟨⟨2023, 3, 15⟩, 90000, 2023⟩]
        (⟨2024, 3, 15⟩ : Date)).head? = some ⟨⟨2023, 3, 15⟩, 90000, 2023⟩ := by
    decide
  unfold reconcileOne
  rw [h]
  norm_num [ratioOf, pctOf]
  simp

/-- C3 amended: when the reconciler finds a prior-year match `pr` with
`pr.volume > 0`, the output has `yoy_ratio = volume / pr.volume`, and
`yoy_percentage = (yoy_ratio - 1) * 100` whenever the ratio is nonzero
(equivalently, `volume ≠ 0`); when `volume = 0`, the ratio is present but
the percentage is left absent by the truthiness guard. -/
theorem yoy_formula_with_truthiness_guard
    (series : List VolumeRecord) (r : VolumeRecord) (pr : VolumeRecord)
    (h : (lastYearData series r.date).head? = some pr)
    (hpos : pr.volume > 0) :
    (reconcileOne series r).yoyQuot =
      some ((r.volume : ℚ) / (pr.volume : ℚ)) ∧
    (r.volume ≠ 0 →
      (reconcileOne series r).yoyPct =
        some (((r.volume : ℚ) / (pr.volume : ℚ) - 1) * 100)) ∧
    (r.volume = 0 → (reconcileOne series r).yoyPct = none) := by
  have hq0 : ((r.volume : ℚ) / (pr.volume : ℚ) = 0) ↔ r.volume = 0 := by
    rw [div_eq_zero_iff]
    constructor
    · rintro (h0 | h0)
      · exact_mod_cast h0
      · exact absurd h0 (Int.cast_ne_zero.mpr (by omega))
    · intro h0
      exact Or.inl (by exact_mod_cast h0)
  have hr : ratioOf r.volume pr.volume =
      some ((r.volume : ℚ) / (pr.volume : ℚ)) := if_pos hpos
  refine ⟨?_, fun hne => ?_, fun hz => ?_⟩
  · unfold reconcileOne
    rw [h]
    exact hr
  · unfold reconcileOne
    rw [h]
    show pctOf (ratioOf r.volume pr.volume) =
      some (((r.volume : ℚ) / (pr.volume : ℚ) - 1) * 100)
    rw [hr]
    have hcond : (((r.volume : ℚ) / (pr.volume : ℚ)) == 0) = false :=
      beq_eq_false_iff_ne.mpr fun hc => hne (hq0.mp hc)
    show (if ((r.volume : ℚ) / (pr.volume : ℚ)) == 0 then none
      else some (((r.volume : ℚ) / (pr.volume : ℚ) - 1) * 100) : Option ℚ) =
      some (((r.volume : ℚ) / (pr.volume : ℚ) - 1) * 100)
    rw [hcond]
    rfl
  · unfold reconcileOne
    rw [h]
    show pctOf (ratioOf r.volume pr.volume) = none
    rw [hr]
    have hcond : (((r.volume : ℚ) / (pr.volume : ℚ)) == 0) = true :=
      beq_iff_eq.mpr (hq0.mpr hz)
    show (if ((r.volume : ℚ) / (pr.volume : ℚ)) == 0 then none
      else some (((r.volume : ℚ) / (pr.volume : ℚ) - 1) * 100) : Option ℚ) = none
    rw [hcond]
    rfl

/-- Witness for C3 (amended): the spec's exact-match scenario
{(2024-03-15, 100000), (2023-03-15, 90000)} — the prior volume used is
90000, the quotient 100000/90000, and the percentage
(100000/90000 − 1) × 100 = 100/9 ≈ 11.11. -/
theorem yoy_formula_with_truthiness_guard_witness :
    (reconcileOne
        [⟨⟨2024, 3, 15⟩, 100000, 2024⟩, ⟨⟨2023, 3, 15⟩, 90000, 2023⟩]
        ⟨⟨2024, 3, 15⟩, 100000, 2024⟩).yoyQuot =
      some (((100000 : Int) : ℚ) / ((90000 : Int) : ℚ)) ∧
    (reconcileOne
        [⟨⟨2024, 3, 15⟩, 100000, 2024⟩, ⟨⟨2023, 3, 15⟩, 90000, 2023⟩]
        ⟨⟨2024, 3, 15⟩, 100000, 2024⟩).yoyPct =
      some ((((100000 : Int) : ℚ) / ((90000 : Int) : ℚ) - 1) * 100) ∧
    ((((100000 : Int) : ℚ) / ((90000 : Int) : ℚ) - 1) * 100 = 100 / 9) := by
  have h := yoy_formula_with_truthiness_guard
    [⟨⟨2024, 3, 15⟩, 100000, 2024⟩, ⟨⟨2023, 3, 15⟩, 90000, 2023⟩]
    ⟨⟨2024, 3, 15⟩, 100000, 2024⟩ ⟨⟨2023, 3, 15⟩, 90000, 2023⟩
    (by decide) (by decide)
  exact ⟨h.1, h.2.1 (by decide), by norm_num⟩

/-- C4: if the matched prior-year record has volume 0, or no prior-year
record is found at all (exact search and every windowed offset empty), both
`yoy_ratio` and `yoy_percentage` are absent — `None`, never an infinite, NaN
or zero value — and that absence is the `Option.none` value, distinguishable
from a computed 0% change (`some 0`). -/
theorem yoy_absent_on_zero_prior_or_no_match
    (series : List VolumeRecord) (r : VolumeRecord) :
    ((lastYearData series r.date).head? = none →
      (reconcileOne series r).yoyQuot = none ∧
      (reconcileOne series r).yoyPct = none) ∧
    (∀ pr, (lastYearData series r.date).head? = some pr → pr.volume = 0 →
      (reconcileOne series r).yoyQuot = none ∧
      (reconcileOne series r).yoyPct = none ∧
      (reconcileOne series r).yoyPct ≠ some 0) := by
  constructor
  · intro h
    unfold reconcileOne
    rw [h]
    exact ⟨rfl, rfl⟩
  · intro pr h h0
    have hneg : ¬ (pr.volume > 0) := by omega
    have hr : ratioOf r.volume pr.volume = none := if_neg hneg
    refine ⟨?_, ?_, ?_⟩
    · unfold reconcileOne
      rw [h]
      exact hr
    · unfold reconcileOne
      rw [h]
      show pctOf (ratioOf r.volume pr.volume) = none
      rw [hr]
      rfl
    · unfold reconcileOne
      rw [h]
      show pctOf (ratioOf r.volume pr.volume) ≠ some 0
      rw [hr]
      simp [pctOf]

/-- Witness for C4: on {(2024-03-15, 100000)} alone there is no prior-year
record and both fields are absent; on
{(2024-03-15, 100000), (2023-03-15, 0)} the matched prior volume is 0 and
both fields are absent, and the percentage is not `some 0`. -/
theorem yoy_absent_on_zero_prior_or_no_match_witness :
    ((reconcileOne [⟨⟨2024, 3, 15⟩, 100000, 2024⟩]
        ⟨⟨2024, 3, 15⟩, 100000, 2024⟩).yoyQuot = none ∧
      (reconcileOne [⟨⟨2024, 3, 15⟩, 100000, 2024⟩]
        ⟨⟨2024, 3, 15⟩, 100000, 2024⟩).yoyPct = none) ∧
    ((reconcileOne
        [⟨⟨2024, 3, 15⟩, 100000, 2024⟩, ⟨⟨2023, 3, 15⟩, 0, 2023⟩]
        ⟨⟨2024, 3, 15⟩, 100000, 2024⟩).yoyQuot = none ∧
      (reconcileOne
        [⟨⟨2024, 3, 15⟩, 100000, 2024⟩, ⟨⟨2023, 3, 15⟩, 0, 2023⟩]
        ⟨⟨2024, 3, 15⟩, 100000, 2024⟩).yoyPct = none ∧
      (reconcileOne
        [⟨⟨2024, 3, 15⟩, 100000, 2024⟩, ⟨⟨2023, 3, 15⟩, 0, 2023⟩]
        ⟨⟨2024, 3, 15⟩, 100000, 2024⟩).yoyPct ≠ some 0) :=
  ⟨(yoy_absent_on_zero_prior_or_no_match
      [⟨⟨2024, 3, 15⟩, 100000, 2024⟩]
      ⟨⟨2024, 3, 15⟩, 100000, 2024⟩).1 (by decide),
   (yoy_absent_on_zero_prior_or_no_match
      [⟨⟨2024, 3, 15⟩, 100000, 2024⟩, ⟨⟨2023, 3, 15⟩, 0, 2023⟩]
      ⟨⟨2024, 3, 15⟩, 100000, 2024⟩).2
      ⟨⟨2023, 3, 15⟩, 0, 2023⟩ (by decide) rfl⟩

/-- C5 counterexample: the claim says a table with a `date` header cell is
selected over every other table lacking such a header, regardless of other
keywords. But phase 1 tests `'date' in h or 'tsa' in h` in document order:
on a page whose first table has a "TSA checkpoint travel numbers" header
(no `date`) and whose second table has a "Date" header, the FIRST table is
selected, and the result differs from extracting the `date` table. -/
theorem table_selection_date_cex :
    hasSubstr "date".toList (headerLower
      [[⟨true, "Date"⟩, ⟨true, "Numbers"⟩],
       [⟨false, "3/15/2024"⟩, ⟨false, "200"⟩]]) = true ∧
    hasSubstr "date".toList (headerLower
      [[⟨true, "TSA checkpoint travel numbers"⟩, ⟨true, "Count"⟩],
       [⟨false, "1/1/2024"⟩, ⟨false, "100"⟩]]) = false ∧
    parse_table_data
      [[[⟨true, "TSA checkpoint travel numbers"⟩, ⟨true, "Count"⟩],
        [⟨false, "1/1/2024"⟩, ⟨false, "100"⟩]],
       [[⟨true, "Date"⟩, ⟨true, "Numbers"⟩],
        [⟨false, "3/15/2024"⟩, ⟨false, "200"⟩]]] 2024 =
      [⟨⟨2024, 1, 1⟩, 100, 2024⟩] ∧
    parse_table_data
      [[[⟨true, "TSA checkpoint travel numbers"⟩, ⟨true, "Count"⟩],
        [⟨false, "1/1/2024"⟩, ⟨false, "100"⟩]],
       [[⟨true, "Date"⟩, ⟨true, "Numbers"⟩],
        [⟨false, "3/15/2024"⟩, ⟨false, "200"⟩]]] 2024 ≠
      extract_table_data 2024
        [[⟨true, "Date"⟩, ⟨true, "Numbers"⟩],
         [⟨false, "3/15/2024"⟩, ⟨false, "200"⟩]] := by
  decide

/-- C5 amended: phase 1 selects the first table in document order whose
header cells are nonempty and whose joined header text contains `date` or
`tsa` case-insensitively; consequently a table with a `date` header is
selected in preference to every other table lacking BOTH keywords, but an
earlier table carrying only the `tsa` keyword wins over a later `date`
table. A nonempty header containing `date` does satisfy the phase-1 test. -/
theorem table_selection_first_keyword
    (tables : List (List (List Cell))) (year : Nat)
    (pre : List (List (List Cell))) (t : List (List Cell))
    (post : List (List (List Cell)))
    (hsplit : tables = pre ++ t :: post)
    (hpre : ∀ u ∈ pre, semanticMatch u = false)
    (ht : semanticMatch t = true) :
    parse_table_data tables year = extract_table_data year t ∧
    (∀ u, thTexts u ≠ [] →
      hasSubstr "date".toList (headerLower u) = true →
      semanticMatch u = true) := by
  constructor
  · unfold parse_table_data
    rw [hsplit, find?_split semanticMatch pre t post hpre ht]
  · intro u h1 h2
    unfold semanticMatch
    simp [h1]
    exact Or.inl (by simpa using h2)

/-- Witness for C5 (amended): a page whose first table has a keyword-free
"Foo" header and whose second table has the "Date" header — the `date`
table is the one extracted. -/
theorem table_selection_first_keyword_witness :
    parse_table_data
      [[[⟨true, "Foo"⟩, ⟨true, "Bar"⟩],
        [⟨false, "1/1/2024"⟩, ⟨false, "100"⟩]],
       [[⟨true, "Date"⟩, ⟨true, "Numbers"⟩],
        [⟨false, "3/15/2024"⟩, ⟨false, "200"⟩]]] 2024 =
      extract_table_data 2024
        [[⟨true, "Date"⟩, ⟨true, "Numbers"⟩],
         [⟨false, "3/15/2024"⟩, ⟨false, "200"⟩]] ∧
    semanticMatch
      [[⟨true, "Date"⟩, ⟨true, "Numbers"⟩],
       [⟨false, "3/15/2024"⟩, ⟨false, "200"⟩]] = true := by
  have h := table_selection_first_keyword
    [[[⟨true, "Foo"⟩, ⟨true, "Bar"⟩],
      [⟨false, "1/1/2024"⟩, ⟨false, "100"⟩]],
     [[⟨true, "Date"⟩, ⟨true, "Numbers"⟩],
      [⟨false, "3/15/2024"⟩, ⟨false, "200"⟩]]] 2024
    [[[⟨true, "Foo"⟩, ⟨true, "Bar"⟩],
      [⟨false, "1/1/2024"⟩, ⟨false, "100"⟩]]]
    [[⟨true, "Date"⟩, ⟨true, "Numbers"⟩],
     [⟨false, "3/15/2024"⟩, ⟨false, "200"⟩]]
    [] rfl (by decide) (by decide)
  exact ⟨h.1, h.2 _ (by decide) (by decide)⟩

/-- C6 counterexample: the claim says phase 2 selects the first table whose
first DATA row is date-shaped. The code instead tests the table's FIRST row
(`rows[0]`, the presumed header): for a table whose row 0 is the textual
header ["Date", "Numbers"] in plain `td` cells and whose row 1 is the data
row ["3/15/2024", "100"], the claim's test passes, yet the code selects
nothing and returns the empty Series — even though extracting that table
would have produced a record. -/
theorem structural_fallback_first_row_cex :
    specFirstDataRowShaped
      [[⟨false, "Date"⟩, ⟨false, "Numbers"⟩],
       [⟨false, "3/15/2024"⟩, ⟨false, "100"⟩]] = true ∧
    thTexts
      [[⟨false, "Date"⟩, ⟨false, "Numbers"⟩],
       [⟨false, "3/15/2024"⟩, ⟨false, "100"⟩]] = [] ∧
    structuralMatch
      [[⟨false, "Date"⟩, ⟨false, "Numbers"⟩],
       [⟨false, "3/15/2024"⟩, ⟨false, "100"⟩]] = false ∧
    parse_table_data
      [[[⟨false, "Date"⟩, ⟨false, "Numbers"⟩],
        [⟨false, "3/15/2024"⟩, ⟨false, "100"⟩]]] 2024 = [] ∧
    extract_table_data 2024
      [[⟨false, "Date"⟩, ⟨false, "Numbers"⟩],
       [⟨false, "3/15/2024"⟩, ⟨false, "100"⟩]] =
      [⟨⟨2024, 3, 15⟩, 100, 2024⟩] := by
  decide

/-- C6 amended: when no table passes phase 1, the extractor selects the
first table that has at least two rows and whose FIRST row (the presumed
header row, not the first data row) has ≥ 2 cells with a first-cell text
containing `/` and a digit; and when no table passes either phase it
returns the empty Series rather than failing. -/
theorem structural_fallback_first_row_and_empty
    (tables : List (List (List Cell))) (year : Nat)
    (hnosem : ∀ u ∈ tables, semanticMatch u = false) :
    ((∀ u ∈ tables, structuralMatch u = false) →
      parse_table_data tables year = []) ∧
    (∀ pre t post, tables = pre ++ t :: post →
      (∀ u ∈ pre, structuralMatch u = false) → structuralMatch t = true →
      parse_table_data tables year = extract_table_data year t) := by
  have hsem : tables.find? semanticMatch = none := find?_none _ _ hnosem
  constructor
  · intro hstr
    unfold parse_table_data
    rw [hsem, find?_none _ _ hstr]
  · intro pre t post hsplit hpre ht
    unfold parse_table_data
    rw [hsem, hsplit, find?_split structuralMatch pre t post hpre ht]

/-- Witness for C6 (amended): a page with only the header-shaped table
yields the empty Series, and a page with a headerless table whose row 0 is
date-shaped extracts that table. -/
theorem structural_fallback_first_row_and_empty_witness :
    parse_table_data
      [[[⟨false, "Date"⟩, ⟨false, "Numbers"⟩],
        [⟨false, "3/15/2024"⟩, ⟨false, "100"⟩]]] 2024 = [] ∧
    parse_table_data
      [[[⟨false, "3/15/2024"⟩, ⟨false, "100"⟩],
        [⟨false, "3/16/2024"⟩, ⟨false, "200"⟩]]] 2024 =
      extract_table_data 2024
        [[⟨false, "3/15/2024"⟩, ⟨false, "100"⟩],
         [⟨false, "3/16/2024"⟩, ⟨false, "200"⟩]] :=
  ⟨(structural_fallback_first_row_and_empty
      [[[⟨false, "Date"⟩, ⟨false, "Numbers"⟩],
        [⟨false, "3/15/2024"⟩, ⟨false, "100"⟩]]] 2024 (by decide)).1
      (by decide),
   (structural_fallback_first_row_and_empty
      [[[⟨false, "3/15/2024"⟩, ⟨false, "100"⟩],
        [⟨false, "3/16/2024"⟩, ⟨false, "200"⟩]]] 2024 (by decide)).2
      [] _ [] rfl (by decide) (by decide)⟩

/-- C7 counterexample: the claim says a row whose volume cell parses to a
negative integer (after stripping thousands separators) is discarded. But
Python's `int()` accepts a leading minus sign and the code applies no sign
check, so the row ("3/15/2024", "-100") is emitted as a record with
volume −100 < 0. -/
theorem negative_volume_emitted_cex :
    extract_table_data 2024
      [[⟨true, "Date"⟩, ⟨true, "Numbers"⟩],
       [⟨false, "3/15/2024"⟩, ⟨false, "-100"⟩]] =
      [⟨⟨2024, 3, 15⟩, -100, 2024⟩] ∧
    (⟨⟨2024, 3, 15⟩, -100, 2024⟩ : VolumeRecord).volume < 0 := by
  decide

/-- C7 amended: every emitted record's volume is exactly the integer that
Python's `int()` produces from the comma-stripped volume cell — negative
values included — and a row whose comma-stripped volume text fails integer
parsing is discarded, never emitted. The `volume >= 0` invariant is NOT
enforced by the code. -/
theorem volume_parse_amended (year : Nat) (t : List (List Cell))
    (rec : VolumeRecord) (h : rec ∈ extract_table_data year t) :
    (∃ row ∈ t.drop 1, ∃ (c0 c1 : Cell) (cs : List Cell),
      row = c0 :: c1 :: cs ∧
      parseDateText c0.text = some rec.date ∧
      pyInt? (stripCommas c1.text.toList) = some rec.volume) ∧
    (∀ (c0 c1 : Cell) (cs : List Cell),
      pyInt? (stripCommas c1.text.toList) = none →
      parseRow year (c0 :: c1 :: cs) = none) := by
  constructor
  · unfold extract_table_data at h
    obtain ⟨row, hrow, hparse⟩ := List.mem_filterMap.mp h
    refine ⟨row, hrow, ?_⟩
    match row with
    | [] => exact absurd hparse (by simp [parseRow])
    | [c0] => exact absurd hparse (by simp [parseRow])
    | c0 :: c1 :: cs =>
      refine ⟨c0, c1, cs, rfl, ?_⟩
      simp only [parseRow] at hparse
      cases hd : parseDateText c0.text with
      | none => rw [hd] at hparse; simp at hparse
      | some d =>
        rw [hd] at hparse
        cases hv : pyInt? (stripCommas c1.text.toList) with
        | none => rw [hv] at hparse; simp at hparse
        | some v =>
          rw [hv] at hparse
          simp only [Option.some.injEq] at hparse
          subst hparse
          exact ⟨rfl, rfl⟩
  · intro c0 c1 cs hnone
    simp only [parseRow]
    cases hd : parseDateText c0.text <;> rw [hnone]

/-- Witness for C7 (amended): the emitted (3/15/2024, −100) record's volume
is the Python-int parse of "-100", and the row ("3/15/2024", "12x") with an
unparseable volume is discarded. -/
theorem volume_parse_amended_witness :
    (∃ row ∈ ([[⟨true, "Date"⟩, ⟨true, "Numbers"⟩],
        [⟨false, "3/15/2024"⟩, ⟨false, "-100"⟩]] :
          List (List Cell)).drop 1,
      ∃ (c0 c1 : Cell) (cs : List Cell),
        row = c0 :: c1 :: cs ∧
        parseDateText c0.text =
          some (⟨⟨2024, 3, 15⟩, -100, 2024⟩ : VolumeRecord).date ∧
        pyInt? (stripCommas c1.text.toList) =
          some (⟨⟨2024, 3, 15⟩, -100, 2024⟩ : VolumeRecord).volume) ∧
    parseRow 2024 [⟨false, "3/15/2024"⟩, ⟨false, "12x"⟩] = none := by
  have h := volume_parse_amended 2024
    [[⟨true, "Date"⟩, ⟨true, "Numbers"⟩],
     [⟨false, "3/15/2024"⟩, ⟨false, "-100"⟩]]
    ⟨⟨2024, 3, 15⟩, -100, 2024⟩ (by decide)
  exact ⟨h.1, h.2 ⟨false, "3/15/2024"⟩ ⟨false, "12x"⟩ [] (by decide)⟩

/-- C8: row extraction is fault-tolerant at row granularity — a row with
fewer than 2 cells, an unparseable date, or an unparseable volume
contributes no record, and removing such a row from a table leaves the
extraction of every other row unchanged (a malformed row never aborts
extraction). -/
theorem row_fault_tolerance (year : Nat) :
    (∀ row : List Cell, row.length < 2 → parseRow year row = none) ∧
    (∀ (c0 c1 : Cell) (cs : List Cell), parseDateText c0.text = none →
      parseRow year (c0 :: c1 :: cs) = none) ∧
    (∀ (c0 c1 : Cell) (cs : List Cell),
      pyInt? (stripCommas c1.text.toList) = none →
      parseRow year (c0 :: c1 :: cs) = none) ∧
    (∀ (hdr bad : List Cell) (pre post : List (List Cell)),
      parseRow year bad = none →
      extract_table_data year (hdr :: pre ++ bad :: post) =
        extract_table_data year (hdr :: pre ++ post)) := by
  refine ⟨?_, ?_, ?_, ?_⟩
  · intro row hlt
    match row with
    | [] => rfl
    | [c0] => rfl
    | c0 :: c1 :: cs => simp at hlt; omega
  · intro c0 c1 cs hd
    simp only [parseRow]
    rw [hd]
  · intro c0 c1 cs hv
    simp only [parseRow]
    cases hd : parseDateText c0.text <;> rw [hv]
  · intro hdr bad pre post hbad
    unfold extract_table_data
    show (pre ++ bad :: post).filterMap (parseRow year) =
      (pre ++ post).filterMap (parseRow year)
    simp [List.filterMap_append, List.filterMap_cons, hbad]

/-- Witness for C8: a one-cell row, a bad-date row, and a bad-volume row
each parse to no record, and deleting the bad-volume row from a concrete
table leaves the other rows' extraction unchanged. -/
theorem row_fault_tolerance_witness :
    parseRow 2024 [⟨false, "3/15/2024"⟩] = none ∧
    parseRow 2024 [⟨false, "Date"⟩, ⟨false, "100"⟩] = none ∧
    parseRow 2024 [⟨false, "3/15/2024"⟩, ⟨false, "12x"⟩] = none ∧
    extract_table_data 2024
      [[⟨true, "Date"⟩, ⟨true, "Numbers"⟩],
       [⟨false, "3/15/2024"⟩, ⟨false, "100"⟩],
       [⟨false, "3/16/2024"⟩, ⟨false, "12x"⟩],
       [⟨false, "3/17/2024"⟩, ⟨false, "300"⟩]] =
      extract_table_data 2024
        [[⟨true, "Date"⟩, ⟨true, "Numbers"⟩],
         [⟨false, "3/15/2024"⟩, ⟨false, "100"⟩],
         [⟨false, "3/17/2024"⟩, ⟨false, "300"⟩]] :=
  ⟨(row_fault_tolerance 2024).1 [⟨false, "3/15/2024"⟩] (by decide),
   (row_fault_tolerance 2024).2.1 ⟨false, "Date"⟩ ⟨false, "100"⟩ []
     (by decide),
   (row_fault_tolerance 2024).2.2.1 ⟨false, "3/15/2024"⟩ ⟨false, "12x"⟩ []
     (by decide),
   (row_fault_tolerance 2024).2.2.2
     [⟨true, "Date"⟩, ⟨true, "Numbers"⟩]
     [⟨false, "3/16/2024"⟩, ⟨false, "12x"⟩]
     [[⟨false, "3/15/2024"⟩, ⟨false, "100"⟩]]
     [[⟨false, "3/17/2024"⟩, ⟨false, "300"⟩]] (by decide)⟩

/-- C9: `scrape_all_years` over an inclusive year range returns a
permutation of the concatenation of the per-year results (empty years
contributing nothing), sorted ascending by date; and when every year in the
range fails (an empty per-year Series), it returns the empty Series rather
than raising. -/
theorem aggregate_sorted_concat (f : Nat → List VolumeRecord) (a b : Nat) :
    (scrape_all_years f a b).Perm
      (((List.range' a (b + 1 - a)).map f).flatten) ∧
    List.Sorted dateLe (scrape_all_years f a b) ∧
    ((∀ y ∈ List.range' a (b + 1 - a), f y = []) →
      scrape_all_years f a b = []) := by
  have hflat : (collectYears f a b).flatten =
      ((List.range' a (b + 1 - a)).map f).flatten :=
    flatten_filter_nonempty _
  by_cases h : (collectYears f a b).isEmpty
  · have hnil : collectYears f a b = [] := List.isEmpty_iff.mp h
    have hres : scrape_all_years f a b = [] := by
      unfold scrape_all_years
      rw [if_pos h]
    refine ⟨?_, ?_, fun _ => hres⟩
    · rw [hres, ← hflat, hnil]
      simp
    · rw [hres]
      exact List.sorted_nil
  · have hres : scrape_all_years f a b =
        sortByDate (collectYears f a b).flatten := by
      unfold scrape_all_years
      rw [if_neg h]
    refine ⟨?_, ?_, fun hall => ?_⟩
    · rw [hres, ← hflat]
      exact List.perm_insertionSort dateLe _
    · rw [hres]
      exact List.sorted_insertionSort dateLe _
    · exfalso
      apply h
      rw [List.isEmpty_iff]
      unfold collectYears
      rw [List.filter_eq_nil_iff]
      intro l hl
      obtain ⟨y, hy, rfl⟩ := List.mem_map.mp hl
      simp [hall y hy]

/-- Witness for C9: a range where every year's scrape fails yields the
empty Series. -/
theorem aggregate_sorted_concat_witness :
    scrape_all_years (fun _ => []) 2022 2025 = [] :=
  (aggregate_sorted_concat (fun _ => []) 2022 2025).2.2 (fun _ _ => rfl)

/-- C10: row extraction unconditionally discards the selected table's first
row as a presumed header, so a table of N rows that all parse as data rows
yields exactly N − 1 records, and the record parsed from the first row
never appears in the returned Series (when no other row repeats its
date). -/
theorem first_row_always_dropped (year : Nat) (r0 : List Cell)
    (rest : List (List Cell))
    (hall : ∀ row ∈ r0 :: rest, (parseRow year row).isSome) :
    (extract_table_data year (r0 :: rest)).length =
      (r0 :: rest).length - 1 ∧
    (∀ rec, parseRow year r0 = some rec →
      (∀ row ∈ rest,
        (parseRow year row).all (fun rec2 => rec2.date != rec.date)) →
      rec ∉ extract_table_data year (r0 :: rest)) := by
  constructor
  · show ((rest).filterMap (parseRow year)).length = (r0 :: rest).length - 1
    rw [filterMap_length_all_isSome (parseRow year) rest
      (fun row hrow => hall row (List.mem_cons_of_mem r0 hrow))]
    rfl
  · intro rec hrec hdist hmem
    have hmem' : rec ∈ rest.filterMap (parseRow year) := hmem
    obtain ⟨row, hrow, hp⟩ := List.mem_filterMap.mp hmem'
    have hd := hdist row hrow
    rw [hp] at hd
    simp [Option.all] at hd

/-- Witness for C10: a headerless table whose 2 rows are both well-formed
data rows yields exactly 1 record, and the first row's (3/15/2024, 100)
record is missing from the result. -/
theorem first_row_always_dropped_witness :
    (extract_table_data 2024
      [[⟨false, "3/15/2024"⟩, ⟨false, "100"⟩],
       [⟨false, "3/16/2024"⟩, ⟨false, "200"⟩]]).length =
      ([[⟨false, "3/15/2024"⟩, ⟨false, "100"⟩],
        [⟨false, "3/16/2024"⟩, ⟨false, "200"⟩]] :
          List (List Cell)).length - 1 ∧
    (⟨⟨2024, 3, 15⟩, 100, 2024⟩ : VolumeRecord) ∉
      extract_table_data 2024
        [[⟨false, "3/15/2024"⟩, ⟨false, "100"⟩],
         [⟨false, "3/16/2024"⟩, ⟨false, "200"⟩]] := by
  have h := first_row_always_dropped 2024
    [⟨false, "3/15/2024"⟩, ⟨false, "100"⟩]
    [[⟨false, "3/16/2024"⟩, ⟨false, "200"⟩]] (by decide)
  exact ⟨h.1, h.2 ⟨⟨2024, 3, 15⟩, 100, 2024⟩ (by decide) (by decide)⟩

end TSA
